import Mathlib

/-!
Verification of the module-execution shim `tensorboard/__main__.py`.

The module body consists of four statements (lines 21 to 28 of the source):

  from tensorboard import main as _main
  run_main = _main.run_main
  del _main
  if __name__ == MAIN: run_main()

We embed this body as a small statement interpreter over an explicit module
namespace together with a trace of the calls the body performs.  The external
collaborator module `tensorboard.main` is abstracted by a record carrying its
entry-point callable, and the behaviour of invoking a callable is a parameter
of the execution context.
-/

namespace TensorboardShim

variable {C V E I : Type}

/-- Result of invoking a Python callable: it either returns a value or raises
an error. -/
inductive CallResult (V E : Type) where
  | ret (v : V)
  | exn (e : E)
  deriving DecidableEq

/-- The collaborator module `tensorboard.main` as consumed by the shim: the
only attribute the shim reads from it is the entry point `run_main`. -/
structure MainModule (C : Type) where
  run_main : C
  deriving DecidableEq

/-- The module namespace of the shim, restricted to the two names the body
binds: `run_main` (bound at line 23) and the intermediate `_main` (bound at
line 21, deleted at line 25). -/
structure Namespace (C : Type) where
  run_main : Option C
  _main : Option (MainModule C)
  deriving DecidableEq

/-- One observable call event: which callable was invoked and with which
argument list. -/
structure CallEvent (C V : Type) where
  callee : C
  args : List V
  deriving DecidableEq

/-- Execution state of the module body: the namespace built so far and the
calls performed so far. -/
structure PyState (C V : Type) where
  ns : Namespace C
  trace : List (CallEvent C V)
  deriving DecidableEq

/-- Errors that can abort the module body: a failure to resolve or load the
imported module, a lookup of an unbound name, or an error raised by an
invoked callable (carried unmodified). -/
inductive PyError (E I : Type) where
  | importError (i : I)
  | nameError
  | fromCall (e : E)
  deriving DecidableEq

/-- Execution context of the module body: whether the module is the direct
execution target of the process (the `__name__` check), how the import of
`tensorboard.main` resolves in the current environment, and the semantics of
invoking a callable with an argument list. -/
structure Config (C V E I : Type) where
  isMain : Bool
  importResult : Except I (MainModule C)
  invoke : C → List V → CallResult V E

/-- The four statements of the shim module body. -/
inductive Stmt where
  | importMain
  | bindRunMain
  | delMain
  | guardCall
  deriving DecidableEq

/-- Execute one statement of the body, returning the new state and an error
if the statement raised one.

`importMain` models line 21, `from tensorboard import main as _main`: on
success it binds `_main`, on failure it raises the resolution error.
`bindRunMain` models line 23, `run_main = _main.run_main`: it reads the
entry-point attribute of the bound module and binds it, unchanged, to the
name `run_main`.
`delMain` models line 25, `del _main`: it unbinds `_main`.
`guardCall` models lines 27 to 28: only when the module is the direct
execution target, it looks up `run_main` and invokes it with the empty
argument list, recording the call; a returned value is discarded and an
error raised by the callable is propagated unmodified. -/
def execStmt (cfg : Config C V E I) (st : PyState C V) :
    Stmt → PyState C V × Option (PyError E I)
  | .importMain =>
    match cfg.importResult with
    | .error i => (st, some (.importError i))
    | .ok m => ({ st with ns := { st.ns with _main := some m } }, none)
  | .bindRunMain =>
    match st.ns._main with
    | none => (st, some .nameError)
    | some m => ({ st with ns := { st.ns with run_main := some m.run_main } }, none)
  | .delMain =>
    match st.ns._main with
    | none => (st, some .nameError)
    | some _ => ({ st with ns := { st.ns with _main := none } }, none)
  | .guardCall =>
    if cfg.isMain then
      match st.ns.run_main with
      | none => (st, some .nameError)
      | some f =>
        match cfg.invoke f [] with
        | .ret _ => ({ st with trace := st.trace ++ [⟨f, []⟩] }, none)
        | .exn e => ({ st with trace := st.trace ++ [⟨f, []⟩] }, some (.fromCall e))
    else (st, none)

/-- Execute a list of statements in order, stopping at the first error, as
Python does for a module body. -/
def execStmts (cfg : Config C V E I) (st : PyState C V) :
    List Stmt → PyState C V × Option (PyError E I)
  | [] => (st, none)
  | s :: rest =>
    match execStmt cfg st s with
    | (st1, none) => execStmts cfg st1 rest
    | (st1, some e) => (st1, some e)

/-- The shim module body, in source order. -/
def moduleBody : List Stmt := [.importMain, .bindRunMain, .delMain, .guardCall]

/-- The namespace before the body runs: no name is bound. -/
def emptyNamespace : Namespace C := ⟨none, none⟩

/-- Run the whole module body from the empty namespace. -/
def runModule (cfg : Config C V E I) : PyState C V × Option (PyError E I) :=
  execStmts cfg ⟨emptyNamespace, []⟩ moduleBody

/-- Process-level outcome of executing the module as a script. -/
inductive ExitBehavior (E I : Type) where
  | exitCode (n : Nat)
  | uncaught (e : PyError E I)
  deriving DecidableEq

/-- The interpreter exits with status 0 when the script body completes
normally, and aborts with the uncaught error otherwise. -/
def processExit (r : PyState C V × Option (PyError E I)) : ExitBehavior E I :=
  match r.2 with
  | none => .exitCode 0
  | some e => .uncaught e

/-- The list of names left bound in the module namespace. -/
def Namespace.boundNames (ns : Namespace C) : List String :=
  (if ns.run_main.isSome then ["run_main"] else []) ++
  (if ns._main.isSome then ["_main"] else [])

/-- Spec-side description of the collaborator interface (spec section 6):
invoking the entry point obtained from the external module directly, with no
arguments. -/
def collaboratorDirect (cfg : Config C V E I) (m : MainModule C) : CallResult V E :=
  cfg.invoke m.run_main []

/-- Helper: complete description of a run whose import succeeds. -/
theorem runModule_ok (cfg : Config C V E I) (m : MainModule C)
    (him : cfg.importResult = .ok m) :
    runModule cfg =
      if cfg.isMain then
        match cfg.invoke m.run_main [] with
        | .ret _ => (⟨⟨some m.run_main, none⟩, [⟨m.run_main, []⟩]⟩, none)
        | .exn e => (⟨⟨some m.run_main, none⟩, [⟨m.run_main, []⟩]⟩,
            some (.fromCall e))
      else (⟨⟨some m.run_main, none⟩, []⟩, none) := by
  cases hm : cfg.isMain with
  | false =>
    simp [runModule, moduleBody, execStmts, execStmt, him, hm, emptyNamespace]
  | true =>
    cases hr : cfg.invoke m.run_main [] with
    | ret v =>
      simp [runModule, moduleBody, execStmts, execStmt, him, hm, hr, emptyNamespace]
    | exn e =>
      simp [runModule, moduleBody, execStmts, execStmt, him, hm, hr, emptyNamespace]

/-- Helper: complete description of a run whose import fails. -/
theorem runModule_error (cfg : Config C V E I) (i : I)
    (him : cfg.importResult = .error i) :
    runModule cfg = (⟨⟨none, none⟩, []⟩, some (.importError i)) := by
  simp [runModule, moduleBody, execStmts, execStmt, him, emptyNamespace]

/-- Helper: whenever the import succeeds, the final namespace binds
`run_main` to the collaborator entry point and nothing else, in every
execution mode. -/
theorem runModule_ns_eq (cfg : Config C V E I) (m : MainModule C)
    (him : cfg.importResult = .ok m) :
    (runModule cfg).1.ns = ⟨some m.run_main, none⟩ := by
  rw [runModule_ok cfg m him]
  cases hm : cfg.isMain with
  | false => rfl
  | true => cases hr : cfg.invoke m.run_main [] <;> rfl

/-- Helper: under a library import the call trace is empty. -/
theorem runModule_trace_lib (cfg : Config C V E I) (m : MainModule C)
    (him : cfg.importResult = .ok m) (hm : cfg.isMain = false) :
    (runModule cfg).1.trace = [] := by
  rw [runModule_ok cfg m him, hm]
  rfl

/-- Helper: under direct execution the call trace is exactly one call of the
collaborator entry point with no arguments. -/
theorem runModule_trace_main (cfg : Config C V E I) (m : MainModule C)
    (him : cfg.importResult = .ok m) (hm : cfg.isMain = true) :
    (runModule cfg).1.trace = [⟨m.run_main, []⟩] := by
  rw [runModule_ok cfg m him, hm]
  cases hr : cfg.invoke m.run_main [] <;> rfl

/-! Concrete execution contexts used by the witnesses, instantiating every
type parameter with `Nat`. -/

/-- A sample collaborator module whose entry point is the callable `7`. -/
def wMain : MainModule Nat := ⟨7⟩

/-- Direct execution, import succeeds, the entry point returns `0`. -/
def cfgRun : Config Nat Nat Nat Nat := ⟨true, .ok wMain, fun _ _ => .ret 0⟩

/-- Library import, import succeeds, the entry point returns `0`. -/
def cfgLib : Config Nat Nat Nat Nat := ⟨false, .ok wMain, fun _ _ => .ret 0⟩

/-- Direct execution, import succeeds, the entry point raises the error `5`. -/
def cfgRaise : Config Nat Nat Nat Nat := ⟨true, .ok wMain, fun _ _ => .exn 5⟩

/-- Direct execution, the import fails with resolution error `3`. -/
def cfgFail : Config Nat Nat Nat Nat := ⟨true, .error 3, fun _ _ => .ret 0⟩

/-- Direct execution, import succeeds, the entry point returns `1`. -/
def cfgRet1 : Config Nat Nat Nat Nat := ⟨true, .ok wMain, fun _ _ => .ret 1⟩

/-- C1: when the module is the direct execution target, the forwarded
callable `run_main` is invoked exactly once, with no arguments, whether the
call returns or raises. -/
theorem run_main_invoked_once (cfg : Config C V E I) (m : MainModule C)
    (him : cfg.importResult = .ok m) (hm : cfg.isMain = true) :
    (runModule cfg).1.trace = [⟨m.run_main, []⟩] :=
  runModule_trace_main cfg m him hm

/-- Witness for C1 at a concrete context. -/
theorem run_main_invoked_once_witness :
    cfgRun.importResult = .ok wMain ∧ cfgRun.isMain = true ∧
      (runModule cfgRun).1.trace = [⟨wMain.run_main, []⟩] :=
  ⟨rfl, rfl, run_main_invoked_once cfgRun wMain rfl rfl⟩

/-- C2: when the module is imported as a library, `run_main` is never
invoked (the call trace is empty), the body completes without error, and the
final namespace binds exactly the forwarded name `run_main`, with the
intermediate name unbound. -/
theorem library_import_only_binds (cfg : Config C V E I) (m : MainModule C)
    (him : cfg.importResult = .ok m) (hm : cfg.isMain = false) :
    runModule cfg = (⟨⟨some m.run_main, none⟩, []⟩, none) := by
  rw [runModule_ok cfg m him, hm]
  simp

/-- Witness for C2 at a concrete context. -/
theorem library_import_only_binds_witness :
    cfgLib.importResult = .ok wMain ∧ cfgLib.isMain = false ∧
      runModule cfgLib = (⟨⟨some wMain.run_main, none⟩, []⟩, none) :=
  ⟨rfl, rfl, library_import_only_binds cfgLib wMain rfl rfl⟩

/-- C3: every error raised by the entry point under direct execution is
propagated exactly, carried unmodified in the outcome of the body. -/
theorem error_propagated_unmodified (cfg : Config C V E I) (m : MainModule C)
    (e : E) (him : cfg.importResult = .ok m) (hm : cfg.isMain = true)
    (hr : cfg.invoke m.run_main [] = .exn e) :
    (runModule cfg).2 = some (.fromCall e) := by
  rw [runModule_ok cfg m him, hm, hr]
  rfl

/-- Witness for C3 at a concrete context. -/
theorem error_propagated_unmodified_witness :
    cfgRaise.importResult = .ok wMain ∧ cfgRaise.isMain = true ∧
      cfgRaise.invoke wMain.run_main [] = .exn 5 ∧
      (runModule cfgRaise).2 = some (.fromCall 5) :=
  ⟨rfl, rfl, rfl, error_propagated_unmodified cfgRaise wMain 5 rfl rfl rfl⟩

/-- C4, counterexample: the claim says that when the entry point returns a
value, the process exit status is that value, unmodified.  In a context
where the entry point returns `1`, the body invokes `run_main` as a bare
statement, discards the returned value and completes normally, so the
process exits with status `0`, not `1`. -/
theorem return_value_not_exit_status :
    processExit (runModule cfgRet1) = .exitCode 0 ∧
      processExit (runModule cfgRet1) ≠ .exitCode 1 := by
  decide

/-- C4, amended: when the entry point returns a value under direct
execution, the shim discards the value; the body completes normally and the
process exits with status `0`, regardless of the value returned. -/
theorem return_value_discarded (cfg : Config C V E I) (m : MainModule C)
    (v : V) (him : cfg.importResult = .ok m) (hm : cfg.isMain = true)
    (hr : cfg.invoke m.run_main [] = .ret v) :
    processExit (runModule cfg) = .exitCode 0 := by
  rw [runModule_ok cfg m him, hm, hr]
  rfl

/-- Witness for the amended C4 at a concrete context. -/
theorem return_value_discarded_witness :
    cfgRet1.importResult = .ok wMain ∧ cfgRet1.isMain = true ∧
      cfgRet1.invoke wMain.run_main [] = .ret 1 ∧
      processExit (runModule cfgRet1) = .exitCode 0 :=
  ⟨rfl, rfl, rfl, return_value_discarded cfgRet1 wMain 1 rfl rfl rfl⟩

/-- C5: after the body runs with a successful import, the intermediate
reference `_main` is unbound, the forwarded name `run_main` is bound to the
collaborator entry point unchanged, and the bound callable is still
invokable with its original behaviour. -/
theorem intermediate_reference_deleted (cfg : Config C V E I)
    (m : MainModule C) (him : cfg.importResult = .ok m) :
    (runModule cfg).1.ns._main = none ∧
      (runModule cfg).1.ns.run_main = some m.run_main ∧
      ∀ f, (runModule cfg).1.ns.run_main = some f →
        cfg.invoke f [] = cfg.invoke m.run_main [] := by
  have hns : (runModule cfg).1.ns = ⟨some m.run_main, none⟩ :=
    runModule_ns_eq cfg m him
  rw [hns]
  refine ⟨rfl, rfl, ?_⟩
  intro f hf
  have hf2 : some m.run_main = some f := hf
  have he : m.run_main = f := Option.some.inj hf2
  rw [← he]

/-- Witness for C5 at a concrete context. -/
theorem intermediate_reference_deleted_witness :
    cfgRun.importResult = .ok wMain ∧
      ((runModule cfgRun).1.ns._main = none ∧
        (runModule cfgRun).1.ns.run_main = some wMain.run_main ∧
        ∀ f, (runModule cfgRun).1.ns.run_main = some f →
          cfgRun.invoke f [] = cfgRun.invoke wMain.run_main []) :=
  ⟨rfl, intermediate_reference_deleted cfgRun wMain rfl⟩

/-- C6: if the collaborator module cannot be resolved or loaded, the body
fails with the module-resolution error at load time, and the entry point is
never called (the call trace is empty). -/
theorem import_failure_at_load_time (cfg : Config C V E I) (i : I)
    (hie : cfg.importResult = .error i) :
    (runModule cfg).2 = some (.importError i) ∧
      (runModule cfg).1.trace = [] := by
  rw [runModule_error cfg i hie]
  exact ⟨rfl, rfl⟩

/-- Witness for C6 at a concrete context. -/
theorem import_failure_at_load_time_witness :
    cfgFail.importResult = .error 3 ∧
      ((runModule cfgFail).2 = some (.importError 3) ∧
        (runModule cfgFail).1.trace = []) :=
  ⟨rfl, import_failure_at_load_time cfgFail 3 rfl⟩

/-- C7: after a successful import, the final namespace binds exactly one
public name, `run_main`, and every call the body performs invokes exactly
the callable bound under that name. -/
theorem single_public_symbol (cfg : Config C V E I) (m : MainModule C)
    (him : cfg.importResult = .ok m) :
    ((runModule cfg).1.ns).boundNames = ["run_main"] ∧
      ∀ ev ∈ (runModule cfg).1.trace,
        (runModule cfg).1.ns.run_main = some ev.callee := by
  have hns : (runModule cfg).1.ns = ⟨some m.run_main, none⟩ :=
    runModule_ns_eq cfg m him
  constructor
  · rw [hns]
    rfl
  · intro ev hev
    rw [hns]
    cases hm : cfg.isMain with
    | false =>
      rw [runModule_trace_lib cfg m him hm] at hev
      simp at hev
    | true =>
      rw [runModule_trace_main cfg m him hm] at hev
      have hev2 : ev = ⟨m.run_main, []⟩ := List.mem_singleton.mp hev
      rw [hev2]

/-- Witness for C7 at a concrete context. -/
theorem single_public_symbol_witness :
    cfgRun.importResult = .ok wMain ∧
      (((runModule cfgRun).1.ns).boundNames = ["run_main"] ∧
        ∀ ev ∈ (runModule cfgRun).1.trace,
          (runModule cfgRun).1.ns.run_main = some ev.callee) :=
  ⟨rfl, single_public_symbol cfgRun wMain rfl⟩

/-- C8: the shim binds `run_main` to the identical callable obtained from
the collaborator module, and under direct execution the outcome of the body
is exactly the outcome of invoking the collaborator entry point directly: a
return completes the body, an error surfaces unmodified, with no wrapper in
between. -/
theorem shim_refines_collaborator (cfg : Config C V E I) (m : MainModule C)
    (him : cfg.importResult = .ok m) (hm : cfg.isMain = true) :
    (runModule cfg).1.ns.run_main = some m.run_main ∧
      (runModule cfg).2 =
        (match collaboratorDirect cfg m with
          | .ret _ => none
          | .exn e => some (.fromCall e)) := by
  rw [runModule_ok cfg m him, hm]
  unfold collaboratorDirect
  cases hr : cfg.invoke m.run_main [] <;> simp

/-- Witness for C8 at a concrete context. -/
theorem shim_refines_collaborator_witness :
    cfgRaise.importResult = .ok wMain ∧ cfgRaise.isMain = true ∧
      ((runModule cfgRaise).1.ns.run_main = some wMain.run_main ∧
        (runModule cfgRaise).2 =
          (match collaboratorDirect cfgRaise wMain with
            | .ret _ => none
            | .exn e => some (.fromCall e))) :=
  ⟨rfl, rfl, shim_refines_collaborator cfgRaise wMain rfl rfl⟩

/-- C9: if the import of the collaborator module fails, the name `run_main`
is never bound: there is no partially initialized namespace in which it
exists. -/
theorem no_partial_binding_on_import_failure (cfg : Config C V E I) (i : I)
    (hie : cfg.importResult = .error i) :
    (runModule cfg).1.ns.run_main = none ∧
      (runModule cfg).1.ns._main = none := by
  rw [runModule_error cfg i hie]
  exact ⟨rfl, rfl⟩

/-- Witness for C9 at a concrete context. -/
theorem no_partial_binding_on_import_failure_witness :
    cfgFail.importResult = .error 3 ∧
      ((runModule cfgFail).1.ns.run_main = none ∧
        (runModule cfgFail).1.ns._main = none) :=
  ⟨rfl, no_partial_binding_on_import_failure cfgFail 3 rfl⟩

/-- C10: module execution is deterministic: two execution contexts that
agree on the direct-execution indicator, on the import resolution and on the
behaviour of every callable produce identical call traces and identical
final namespaces. -/
theorem module_execution_deterministic (cfg1 cfg2 : Config C V E I)
    (h1 : cfg1.isMain = cfg2.isMain)
    (h2 : cfg1.importResult = cfg2.importResult)
    (h3 : cfg1.invoke = cfg2.invoke) :
    (runModule cfg1).1.trace = (runModule cfg2).1.trace ∧
      (runModule cfg1).1.ns = (runModule cfg2).1.ns := by
  have hc : cfg1 = cfg2 := by
    cases cfg1
    cases cfg2
    simp_all
  rw [hc]
  exact ⟨rfl, rfl⟩

/-- Witness for C10 at a concrete pair of contexts. -/
theorem module_execution_deterministic_witness :
    cfgRun.isMain = (⟨true, .ok wMain, fun _ _ => .ret 0⟩ :
        Config Nat Nat Nat Nat).isMain ∧
      cfgRun.importResult = (⟨true, .ok wMain, fun _ _ => .ret 0⟩ :
        Config Nat Nat Nat Nat).importResult ∧
      cfgRun.invoke = (⟨true, .ok wMain, fun _ _ => .ret 0⟩ :
        Config Nat Nat Nat Nat).invoke ∧
      ((runModule cfgRun).1.trace =
          (runModule (⟨true, .ok wMain, fun _ _ => .ret 0⟩ :
            Config Nat Nat Nat Nat)).1.trace ∧
        (runModule cfgRun).1.ns =
          (runModule (⟨true, .ok wMain, fun _ _ => .ret 0⟩ :
            Config Nat Nat Nat Nat)).1.ns) :=
  ⟨rfl, rfl, rfl,
    module_execution_deterministic cfgRun _ rfl rfl rfl⟩

end TensorboardShim
